import Mathlib

/-!
Verification of the capture-and-log workflow of the AI attendance web app.

The development shallowly embeds the two relevant source modules:

* `src/api/geminiApi.jsx` — the classifier wrapper `processImageWithAI`,
  embedded as a pure function over an `AIOutcome` value that records which
  branch the platform interaction took (HTTP failure, thrown exception,
  unexpected response structure, or a parsed `{status, message}` object).
* `src/components/WebcamCapture.jsx` — the capture workflow controller,
  embedded as a state type `CState` mirroring the component's React state
  variables, per-handler transition functions (`startCameraEffect`,
  `stopCamera`, `captureImage`, `handleProcessImage`, `startVoiceInput`,
  `onVoiceResult` / `logAttendance`, `onVoiceError`, `retakeImage`), and a
  labelled step function `step` whose events are gated by the same
  conditions the JSX uses to render and enable each button (`enabled`).

Two ghost fields instrument the state without changing behaviour:
`openStreams` ledgers the media streams acquired and not yet stopped
(for the single-live-stream invariant) and `gateImage` records which
image the classifier approved when `faceDetectedByAI` was set (to tie
the gate to the currently held image).
-/

/-- Result object returned by `processImageWithAI`
(`{status, faceDetected, message}`); `status` and `message` are `Option`
because in the JS the parsed response's fields may be `undefined`. -/
structure AIResult where
  status : Option String
  faceDetected : Bool
  message : Option String
deriving Repr, DecidableEq

/-- Which branch the platform interaction inside `processImageWithAI` took.
`httpNotOk` is the `!response.ok` branch (with the HTTP status, status text
and the detail string extracted from the error body); `badStructure` is a
2xx response whose body lacks `candidates[0].content.parts[0]`;
`throwCaught` is any exception thrown inside the `try` block (fetch
failure, `response.json()` failure, or `JSON.parse` failure on the part
text), carrying `error.message`; `parsed` is a successfully parsed
`{status, message}` object from the model's JSON text. -/
inductive AIOutcome where
  | httpNotOk (status : Nat) (statusText : String) (detail : String)
  | badStructure
  | throwCaught (errMsg : String)
  | parsed (status : Option String) (message : Option String)
deriving Repr, DecidableEq

/-- `true` on every branch of `processImageWithAI` other than a parsed
response object. -/
def AIOutcome.isFailure : AIOutcome → Bool
  | .parsed _ _ => false
  | _ => true

/-- Embedding of `processImageWithAI` from `src/api/geminiApi.jsx`.
The `API_KEY` pre-check is the `if (!API_KEY)` guard (empty string is
falsy); each `AIOutcome` constructor maps to the return statement of the
corresponding branch in the source. -/
def processImageWithAI (apiKey : String) (o : AIOutcome) : AIResult :=
  if apiKey = "" then
    ⟨some "error", false, some "Gemini API Key is not configured."⟩
  else
    match o with
    | .httpNotOk status statusText detail =>
        ⟨some "error", false,
         some ("Gemini API Error: " ++ toString status ++ " " ++ statusText
               ++ ". Details: " ++ detail)⟩
    | .badStructure =>
        ⟨some "error", false,
         some "AI processing failed: Invalid response structure."⟩
    | .throwCaught errMsg =>
        ⟨some "error", false,
         some ("AI processing failed: " ++ errMsg ++ ".")⟩
    | .parsed status message =>
        ⟨status, message = some "Face detected", message⟩

/-- An attendance record as written by `addDoc` in `logAttendance`
(`personName`, `image`, `loggedByUserId`; the `timestamp` field is
server-assigned by the store and so lives outside the client model). -/
structure AttendanceRecord where
  personName : String
  image : String
  loggedByUserId : String
deriving Repr, DecidableEq

/-- The React state of `WebcamCapture` (one field per `useState` hook,
plus `message`, which the component writes through the `setMessage` prop).
Two ghost fields instrument the model: `openStreams` lists the ids of
media streams acquired via `getUserMedia` whose tracks have not been
stopped, and `gateImage` records which image the classifier approved when
`faceDetectedByAI` was last set true. `nextId` supplies fresh stream ids. -/
structure CState where
  stream : Option Nat
  isCameraActive : Bool
  capturedImage : Option String
  isProcessing : Bool
  faceDetectedByAI : Bool
  isListeningForName : Bool
  recognizedName : String
  message : String
  openStreams : List Nat
  nextId : Nat
  gateImage : Option String
deriving Repr, DecidableEq

/-- The initial state of the component on mount. -/
def initState : CState :=
  { stream := none, isCameraActive := false, capturedImage := none,
    isProcessing := false, faceDetectedByAI := false,
    isListeningForName := false, recognizedName := "", message := "",
    openStreams := [], nextId := 0, gateImage := none }

/-- Events driving the controller. Each event bundles a user action (or an
async callback) together with the environment's response, so one event is
one atomic handler run to completion:
`startCameraOk` / `startCameraFail` — Start Camera pressed and
`getUserMedia` resolved / rejected; `captureOk img` — Capture pressed with
the video/canvas refs ready, the frame encoding to `img`;
`captureNotReady` — Capture pressed with a ref missing;
`processResult r` — Process with AI pressed and `processImageWithAI`
resolved to `r`; `startVoice supported` — Say My Name pressed, with
speech recognition available or not; `voiceResult t dbReady writeErr` —
the recognizer delivered final transcript `t`, `dbReady` is the truth of
`db && userId`, and `writeErr = none` means `addDoc` succeeded while
`some e` means it threw with message `e`; `voiceError e` — the
recognizer's `onerror` fired; `retake camOk` — Retake pressed, the nested
`startCamera` resolving with outcome `camOk`. -/
inductive Ev where
  | startCameraOk
  | startCameraFail
  | captureOk (img : String)
  | captureNotReady
  | processResult (r : AIResult)
  | startVoice (supported : Bool)
  | voiceResult (transcript : String) (dbReady : Bool) (writeErr : Option String)
  | voiceError (err : String)
  | retake (camOk : Bool)
deriving Repr, DecidableEq

/-- The JSX gating of each action: an event is enabled exactly when the
button that triggers it is rendered and not disabled (for the recognizer
callbacks, when a recognition session is active). Mirrors the render
conditions at the bottom of `WebcamCapture.jsx`. -/
def enabled (s : CState) : Ev → Bool
  | .startCameraOk => !s.isCameraActive && !s.capturedImage.isSome
  | .startCameraFail => !s.isCameraActive && !s.capturedImage.isSome
  | .captureOk _ => s.isCameraActive
  | .captureNotReady => s.isCameraActive
  | .processResult _ =>
      s.capturedImage.isSome && !s.faceDetectedByAI && !s.isProcessing
        && s.recognizedName == ""
  | .startVoice _ =>
      s.capturedImage.isSome && s.faceDetectedByAI && !s.isListeningForName
        && !s.isProcessing && s.recognizedName == ""
  | .voiceResult _ _ _ => s.isListeningForName
  | .voiceError _ => s.isListeningForName
  | .retake _ =>
      (s.capturedImage.isSome || s.isProcessing || s.isListeningForName)
        && !s.isProcessing && !s.isListeningForName

/-- `stopCamera`: stop all tracks of the held stream (if any), clear it,
and mark the camera inactive. Deliberately leaves `capturedImage` alone
(see the source comment). -/
def stopCamera (s : CState) : CState :=
  match s.stream with
  | some i =>
      { s with stream := none, isCameraActive := false,
               openStreams := s.openStreams.erase i }
  | none => { s with isCameraActive := false }

/-- `startCamera` run to completion with outcome `ok` for `getUserMedia`.
The synchronous prefix clears message, name, image, listening and gate;
on success a fresh stream is acquired, stored, and the camera marked
active; on failure the webcam error message is shown and the camera
marked inactive. -/
def startCameraEffect (ok : Bool) (s : CState) : CState :=
  let s := { s with message := "", recognizedName := "", capturedImage := none,
                    isListeningForName := false, faceDetectedByAI := false,
                    gateImage := none }
  if ok then
    { s with stream := some s.nextId, isCameraActive := true,
             openStreams := s.openStreams ++ [s.nextId],
             nextId := s.nextId + 1 }
  else
    { s with message := "Error: Could not access webcam. Please ensure it's connected and permissions are granted.",
             isCameraActive := false }

/-- `captureImage`: with both refs ready, store the encoded frame and stop
the camera; otherwise only report that the capture area is not ready. -/
def captureImage (surfaceReady : Bool) (img : String) (s : CState) : CState :=
  if surfaceReady then
    stopCamera { s with capturedImage := some img }
  else
    { s with message := "Camera or capture area not ready. Please try again." }

/-- `handleProcessImage` run to completion with classifier result `r`.
The early return fires when no image is held; otherwise the gate is set
from `aiResponse.status === 'success' && aiResponse.faceDetected`, the
name is cleared in both branches, and `isProcessing` ends false via the
`finally`. `aiResponse.message || "No face detected"` treats an absent or
empty message as falsy. -/
def handleProcessImage (r : AIResult) (s : CState) : CState :=
  match s.capturedImage with
  | none => { s with message := "No image captured to process." }
  | some img =>
    if r.status == some "success" && r.faceDetected then
      { s with faceDetectedByAI := true, gateImage := some img,
               message := "Face detected! Please click 'Say My Name' to provide your name.",
               recognizedName := "", isProcessing := false }
    else
      { s with faceDetectedByAI := false, gateImage := none,
               message := "AI response: "
                 ++ (match r.message with
                     | some m => if m = "" then "No face detected" else m
                     | none => "No face detected")
                 ++ ". Please retake image.",
               recognizedName := "", isProcessing := false }

/-- `startVoiceInput`: if `speechRecognition.current` exists, begin
listening with a cleared name; otherwise only report unavailability. -/
def startVoiceInput (supported : Bool) (s : CState) : CState :=
  if supported then
    { s with isListeningForName := true, recognizedName := "",
             message := "Listening for your name... Please speak clearly." }
  else
    { s with message := "Speech recognition not available. Please ensure your browser supports it (e.g., Chrome)." }

/-- `logAttendance nameToLog` run to completion. Early returns for a falsy
name or a missing image; otherwise, with `db && userId` true, the `addDoc`
either succeeds (record emitted, name and gate cleared, image kept) or
throws (error message shown, nothing else changed); with `db && userId`
false no write is attempted. `isProcessing` ends false via the `finally`. -/
def logAttendance (uid : String) (dbReady : Bool) (writeErr : Option String)
    (nameToLog : String) (s : CState) : CState × Option AttendanceRecord :=
  if nameToLog = "" then
    ({ s with message := "No name provided for attendance logging." }, none)
  else
    match s.capturedImage with
    | none =>
        ({ s with message := "No image captured to log attendance against. Please retake." }, none)
    | some img =>
      if dbReady then
        match writeErr with
        | none =>
            ({ s with message := "Attendance logged successfully for " ++ nameToLog ++ "!",
                      recognizedName := "", faceDetectedByAI := false,
                      gateImage := none, isProcessing := false },
             some ⟨nameToLog, img, uid⟩)
        | some e =>
            ({ s with message := "Error logging attendance: " ++ e ++ ".",
                      isProcessing := false }, none)
      else
        ({ s with message := "Attendance logging not enabled (Firebase not ready or user not authenticated).",
                  isProcessing := false }, none)

/-- The recognizer's `onresult` handler: store the transcript, stop
listening, and immediately invoke `logAttendance` with it. -/
def onVoiceResult (uid t : String) (dbReady : Bool) (writeErr : Option String)
    (s : CState) : CState × Option AttendanceRecord :=
  logAttendance uid dbReady writeErr t
    { s with recognizedName := t,
             message := "Name recognized: " ++ t ++ ". Logging attendance...",
             isListeningForName := false }

/-- The recognizer's `onerror` handler: report, stop listening, clear the
partial name. -/
def onVoiceError (err : String) (s : CState) : CState :=
  { s with message := "Voice input error: " ++ err ++ ". Please try again.",
           isListeningForName := false, recognizedName := "" }

/-- `retakeImage` run to completion: discard image, name, listening state
and gate, stop any active camera, restart the camera (outcome `camOk`).
The trailing `setMessage('Ready for new attendance capture.')` runs after
`startCamera`'s synchronous prefix but before `getUserMedia` settles, so
on success it is the final message while on failure the webcam error
message lands last. -/
def retakeImage (camOk : Bool) (s : CState) : CState :=
  let s := { s with capturedImage := none, recognizedName := "",
                    isListeningForName := false, faceDetectedByAI := false,
                    gateImage := none }
  let s := startCameraEffect camOk (stopCamera s)
  if camOk then { s with message := "Ready for new attendance capture." } else s

/-- One atomic controller step: dispatches the event to the handler
embeddings above; the second component is the record written to the store
by this step, if any. -/
def step (uid : String) (s : CState) : Ev → CState × Option AttendanceRecord
  | .startCameraOk => (startCameraEffect true s, none)
  | .startCameraFail => (startCameraEffect false s, none)
  | .captureOk img => (captureImage true img s, none)
  | .captureNotReady => (captureImage false "" s, none)
  | .processResult r => (handleProcessImage r s, none)
  | .startVoice supported => (startVoiceInput supported s, none)
  | .voiceResult t dbReady writeErr => onVoiceResult uid t dbReady writeErr s
  | .voiceError e => (onVoiceError e s, none)
  | .retake camOk => (retakeImage camOk s, none)

/-- States reachable from the initial mount through enabled events. -/
inductive Reachable (uid : String) : CState → Prop where
  | init : Reachable uid initState
  | next {s : CState} {e : Ev} : Reachable uid s → enabled s e = true →
      Reachable uid (step uid s e).1

/-- The controller invariant: no call is in flight between events; the
stream ledger holds exactly the held stream; the camera-active flag
matches stream ownership; a live camera implies a fresh session (no image,
gate down, no name, not listening); listening implies the gate is up for a
held image with the name still empty; and the gate is only ever up for the
currently held image. -/
def CtrlInv (s : CState) : Prop :=
  s.isProcessing = false
  ∧ s.openStreams = (match s.stream with | some i => [i] | none => [])
  ∧ s.isCameraActive = s.stream.isSome
  ∧ (s.isCameraActive = true →
      s.capturedImage = none ∧ s.faceDetectedByAI = false
        ∧ s.recognizedName = "" ∧ s.isListeningForName = false)
  ∧ (s.isListeningForName = true →
      s.faceDetectedByAI = true ∧ s.capturedImage.isSome = true
        ∧ s.recognizedName = "")
  ∧ (s.faceDetectedByAI = true →
      s.capturedImage.isSome = true ∧ s.gateImage = s.capturedImage)

/-- A concrete user id for the sample run. -/
def uid0 : String := "user-1"

/-- A concrete encoded frame for the sample run. -/
def img0 : String := "data:image/png;base64,AAAA"

/-- A concrete positive classifier response
(`{status:"success", message:"Face detected"}`). -/
def respFace : AIResult := ⟨some "success", true, some "Face detected"⟩

/-- Sample run: after Start Camera succeeds. -/
def sCam : CState := (step uid0 initState .startCameraOk).1

/-- Sample run: after Capture with the surface ready. -/
def sCap : CState := (step uid0 sCam (.captureOk img0)).1

/-- Sample run: after Process with AI returns a positive result. -/
def sReady : CState := (step uid0 sCap (.processResult respFace)).1

/-- Sample run: after Say My Name starts a recognition session. -/
def sListen : CState := (step uid0 sReady (.startVoice true)).1

/-- Sample run: after the transcript "Alice" arrives but the store write
throws (store offline). -/
def sFail : CState :=
  (step uid0 sListen (.voiceResult "Alice" true (some "store offline"))).1

/-- Sample run: after the transcript "Alice" arrives and the store write
succeeds. -/
def sLogged : CState := (step uid0 sListen (.voiceResult "Alice" true none)).1

/-- The record the successful sample write stores. -/
def rec0 : AttendanceRecord := ⟨"Alice", img0, uid0⟩

/-- The initial state satisfies the controller invariant. -/
theorem ctrlInv_init : CtrlInv initState := by
  simp [CtrlInv, initState]

/-- With the invariant's ledger and flag conjuncts, an inactive camera
means no stream is held and the ledger is empty. -/
theorem stream_shape_of_inactive (s : CState)
    (h2 : s.openStreams = (match s.stream with | some i => [i] | none => []))
    (h3 : s.isCameraActive = s.stream.isSome)
    (hact : s.isCameraActive = false) :
    s.stream = none ∧ s.openStreams = [] := by
  cases hs : s.stream with
  | none => rw [hs] at h2; exact ⟨rfl, h2⟩
  | some i => rw [hs, hact] at h3; simp at h3

/-- With the fresh-session conjunct of the invariant, a held image means
the camera is inactive. -/
theorem camera_inactive_of_isSome (s : CState)
    (h4 : s.isCameraActive = true →
      s.capturedImage = none ∧ s.faceDetectedByAI = false
        ∧ s.recognizedName = "" ∧ s.isListeningForName = false)
    (himg : s.capturedImage.isSome = true) : s.isCameraActive = false := by
  cases hact : s.isCameraActive
  · rfl
  · exact absurd himg (by rw [(h4 hact).1]; simp)

/-- With the listening conjunct of the invariant, a lowered gate means no
recognition session is active. -/
theorem listening_false_of_gate_false (s : CState)
    (h5 : s.isListeningForName = true →
      s.faceDetectedByAI = true ∧ s.capturedImage.isSome = true
        ∧ s.recognizedName = "")
    (hg : s.faceDetectedByAI = false) : s.isListeningForName = false := by
  cases hl : s.isListeningForName
  · rfl
  · rw [(h5 hl).1] at hg; exact absurd hg (by decide)

/-- One enabled step preserves the controller invariant. -/
theorem ctrlInv_step (uid : String) (s : CState) (e : Ev)
    (hI : CtrlInv s) (he : enabled s e = true) : CtrlInv (step uid s e).1 := by
  obtain ⟨h1, h2, h3, h4, h5, h6⟩ := hI
  cases e with
  | startCameraOk =>
      simp only [enabled, Bool.and_eq_true, Bool.not_eq_true'] at he
      obtain ⟨hact, himg⟩ := he
      obtain ⟨hs, ho⟩ := stream_shape_of_inactive s h2 h3 hact
      simp [CtrlInv, step, startCameraEffect, h1, ho]
  | startCameraFail =>
      simp only [enabled, Bool.and_eq_true, Bool.not_eq_true'] at he
      obtain ⟨hact, himg⟩ := he
      obtain ⟨hs, ho⟩ := stream_shape_of_inactive s h2 h3 hact
      simp [CtrlInv, step, startCameraEffect, h1, hs, ho]
  | captureOk img =>
      simp only [enabled] at he
      obtain ⟨himg, hgate, hname, hlisten⟩ := h4 he
      have hsome : s.stream.isSome = true := by rw [← h3, he]
      obtain ⟨i, hs⟩ := Option.isSome_iff_exists.mp hsome
      rw [hs] at h2
      simp only [] at h2
      simp [CtrlInv, step, captureImage, stopCamera, hs, h1, h2, hgate, hlisten]
  | captureNotReady =>
      simp only [step, captureImage, Bool.false_eq_true, if_false]
      exact ⟨h1, h2, h3, h4, h5, h6⟩
  | processResult r =>
      simp only [enabled, Bool.and_eq_true, Bool.not_eq_true', beq_iff_eq] at he
      obtain ⟨⟨⟨himg, hgate⟩, hproc⟩, hname⟩ := he
      obtain ⟨img, hs⟩ := Option.isSome_iff_exists.mp himg
      have hact : s.isCameraActive = false := camera_inactive_of_isSome s h4 himg
      have hlisten : s.isListeningForName = false :=
        listening_false_of_gate_false s h5 hgate
      obtain ⟨hstr, ho⟩ := stream_shape_of_inactive s h2 h3 hact
      by_cases hbr : (r.status == some "success" && r.faceDetected) = true
      · simp [CtrlInv, step, handleProcessImage, hs, hbr, h1, hstr, ho, hact, hlisten]
      · simp only [Bool.not_eq_true] at hbr
        simp [CtrlInv, step, handleProcessImage, hs, hbr, h1, hstr, ho, hact, hlisten]
  | startVoice supported =>
      simp only [enabled, Bool.and_eq_true, Bool.not_eq_true', beq_iff_eq] at he
      obtain ⟨⟨⟨⟨himg, hgate⟩, hlisten⟩, hproc⟩, hname⟩ := he
      have hact : s.isCameraActive = false := camera_inactive_of_isSome s h4 himg
      obtain ⟨hstr, ho⟩ := stream_shape_of_inactive s h2 h3 hact
      cases supported with
      | true =>
          simp [CtrlInv, step, startVoiceInput, h1, hstr, ho, hact, himg, hgate, h6 hgate]
      | false =>
          simp only [step, startVoiceInput, Bool.false_eq_true, if_false]
          exact ⟨h1, h2, h3, h4, h5, h6⟩
  | voiceResult t dbReady writeErr =>
      simp only [enabled] at he
      obtain ⟨hgate, himg, hname⟩ := h5 he
      obtain ⟨img, hs⟩ := Option.isSome_iff_exists.mp himg
      have hact : s.isCameraActive = false := camera_inactive_of_isSome s h4 himg
      obtain ⟨hstr, ho⟩ := stream_shape_of_inactive s h2 h3 hact
      by_cases ht : t = ""
      · simp [CtrlInv, step, onVoiceResult, logAttendance, ht, h1, hstr, ho, hact, hgate,
              hs, h6 hgate]
      · cases dbReady with
        | false =>
            simp [CtrlInv, step, onVoiceResult, logAttendance, ht, hs, h1, hstr, ho, hact,
                  hgate, h6 hgate]
        | true =>
            cases writeErr with
            | none =>
                simp [CtrlInv, step, onVoiceResult, logAttendance, ht, hs, h1, hstr, ho, hact]
            | some err =>
                simp [CtrlInv, step, onVoiceResult, logAttendance, ht, hs, h1, hstr, ho, hact,
                      hgate, h6 hgate]
  | voiceError err =>
      simp only [enabled] at he
      obtain ⟨hgate, himg, hname⟩ := h5 he
      have hact : s.isCameraActive = false := camera_inactive_of_isSome s h4 himg
      obtain ⟨hstr, ho⟩ := stream_shape_of_inactive s h2 h3 hact
      simp [CtrlInv, step, onVoiceError, h1, hstr, ho, hact, hgate, h6 hgate]
  | retake camOk =>
      simp only [enabled, Bool.and_eq_true, Bool.or_eq_true, Bool.not_eq_true'] at he
      obtain ⟨⟨hr, hproc⟩, hlisten⟩ := he
      have himg : s.capturedImage.isSome = true := by
        rcases hr with (h | h) | h
        · exact h
        · rw [h] at hproc; exact absurd hproc (by decide)
        · rw [h] at hlisten; exact absurd hlisten (by decide)
      have hact : s.isCameraActive = false := camera_inactive_of_isSome s h4 himg
      obtain ⟨hs, ho⟩ := stream_shape_of_inactive s h2 h3 hact
      cases camOk with
      | true =>
          simp [CtrlInv, step, retakeImage, startCameraEffect, stopCamera, hs, ho, h1]
      | false =>
          simp [CtrlInv, step, retakeImage, startCameraEffect, stopCamera, hs, ho, h1]

/-- Every reachable state satisfies the controller invariant. -/
theorem reachable_inv {uid : String} {s : CState}
    (h : Reachable uid s) : CtrlInv s := by
  induction h with
  | init => exact ctrlInv_init
  | next hr he ih => exact ctrlInv_step _ _ _ ih he

/-- The state after a successful Start Camera is reachable. -/
theorem reach_sCam : Reachable uid0 sCam :=
  Reachable.next (e := Ev.startCameraOk) Reachable.init (by decide)

/-- The state after Capture is reachable. -/
theorem reach_sCap : Reachable uid0 sCap :=
  Reachable.next (e := Ev.captureOk img0) reach_sCam (by decide)

/-- The state after a positive classification is reachable. -/
theorem reach_sReady : Reachable uid0 sReady :=
  Reachable.next (e := Ev.processResult respFace) reach_sCap (by decide)

/-- The listening state of the sample run is reachable. -/
theorem reach_sListen : Reachable uid0 sListen :=
  Reachable.next (e := Ev.startVoice true) reach_sReady (by decide)

/-- The state after a failed store write is reachable. -/
theorem reach_sFail : Reachable uid0 sFail :=
  Reachable.next (e := Ev.voiceResult "Alice" true (some "store offline"))
    reach_sListen (by decide)

/-- A string of length zero is the empty string. -/
theorem string_eq_empty_of_length (s : String) (h : s.length = 0) : s = "" := by
  cases s with
  | mk d =>
      simp only [String.mk_length, List.length_eq_zero] at h
      subst h
      rfl

/-- Appending to a non-empty string yields a non-empty string. -/
theorem append_ne_empty_left (s t : String) (hs : s ≠ "") : s ++ t ≠ "" := by
  intro h
  have h2 := congrArg String.length h
  rw [String.length_append, show ("" : String).length = 0 from rfl] at h2
  exact hs (string_eq_empty_of_length s (by omega))

/-- Claim C2: for every classifier response body, `processImageWithAI`
reports `faceDetected = true` exactly when the parsed response's `message`
field equals the literal string "Face detected"; any other message value
yields `faceDetected = false`; a response body with an unexpected
structure, or one whose part text fails to parse, yields a result with
status 'error' and `faceDetected = false` (and a parsed body passes its
own `status` field through). -/
theorem claim_C2_faceDetected_iff (key : String) (st msg : Option String)
    (e : String) (hk : key ≠ "") :
    ((processImageWithAI key (.parsed st msg)).faceDetected = true
        ↔ msg = some "Face detected")
      ∧ (processImageWithAI key (.parsed st msg)).status = st
      ∧ (processImageWithAI key .badStructure).status = some "error"
      ∧ (processImageWithAI key .badStructure).faceDetected = false
      ∧ (processImageWithAI key (.throwCaught e)).status = some "error"
      ∧ (processImageWithAI key (.throwCaught e)).faceDetected = false := by
  simp [processImageWithAI, hk]

/-- Witness for C2 at a concrete configured key and a concrete negative
parsed response. -/
theorem claim_C2_witness :
    ("k" : String) ≠ ""
      ∧ (((processImageWithAI "k" (.parsed (some "failure") (some "No face detected"))).faceDetected = true
            ↔ (some "No face detected" : Option String) = some "Face detected")
          ∧ (processImageWithAI "k" (.parsed (some "failure") (some "No face detected"))).status = some "failure"
          ∧ (processImageWithAI "k" .badStructure).status = some "error"
          ∧ (processImageWithAI "k" .badStructure).faceDetected = false
          ∧ (processImageWithAI "k" (.throwCaught "boom")).status = some "error"
          ∧ (processImageWithAI "k" (.throwCaught "boom")).faceDetected = false) :=
  ⟨by decide,
   claim_C2_faceDetected_iff "k" (some "failure") (some "No face detected") "boom" (by decide)⟩

/-- Claim C6: for every input and classifier behaviour, the embedded
`processImageWithAI` is a total function (it never rejects), and every
failure path — missing API key, HTTP error, thrown exception, or
unexpected response structure — yields status 'error', `faceDetected`
false, and a non-empty human-readable message. -/
theorem claim_C6_total_error_policy (key : String) (o : AIOutcome)
    (h : key = "" ∨ o.isFailure = true) :
    (processImageWithAI key o).status = some "error"
      ∧ (processImageWithAI key o).faceDetected = false
      ∧ ∃ m, (processImageWithAI key o).message = some m ∧ m ≠ "" := by
  by_cases hk : key = ""
  · refine ⟨by simp [processImageWithAI, hk], by simp [processImageWithAI, hk],
      "Gemini API Key is not configured.", by simp [processImageWithAI, hk], by decide⟩
  · rcases h with h | hf
    · exact absurd h hk
    · cases o with
      | httpNotOk status statusText detail =>
          refine ⟨by simp [processImageWithAI, hk], by simp [processImageWithAI, hk],
            "Gemini API Error: " ++ toString status ++ " " ++ statusText
              ++ ". Details: " ++ detail,
            by simp [processImageWithAI, hk], ?_⟩
          exact append_ne_empty_left _ _ (append_ne_empty_left _ _
            (append_ne_empty_left _ _ (append_ne_empty_left _ _
              (append_ne_empty_left _ _ (by decide)))))
      | badStructure =>
          exact ⟨by simp [processImageWithAI, hk], by simp [processImageWithAI, hk],
            "AI processing failed: Invalid response structure.",
            by simp [processImageWithAI, hk], by decide⟩
      | throwCaught errMsg =>
          refine ⟨by simp [processImageWithAI, hk], by simp [processImageWithAI, hk],
            "AI processing failed: " ++ errMsg ++ ".",
            by simp [processImageWithAI, hk], ?_⟩
          exact append_ne_empty_left _ _ (append_ne_empty_left _ _ (by decide))
      | parsed st msg => simp [AIOutcome.isFailure] at hf

/-- Witness for C6 at a concrete thrown exception. -/
theorem claim_C6_witness :
    (("k" : String) = "" ∨ (AIOutcome.throwCaught "network down").isFailure = true)
      ∧ (processImageWithAI "k" (.throwCaught "network down")).status = some "error"
      ∧ (processImageWithAI "k" (.throwCaught "network down")).faceDetected = false
      ∧ ∃ m, (processImageWithAI "k" (.throwCaught "network down")).message = some m ∧ m ≠ "" :=
  ⟨Or.inr (by decide),
   claim_C6_total_error_policy "k" (.throwCaught "network down") (Or.inr (by decide))⟩

/-- Claim C9: in every reachable state at most one live media source is
open: the ledger of acquired-and-not-stopped streams never holds more
than one entry (acquisition always routes through stop-then-start). -/
theorem claim_C9_single_stream (uid : String) (s : CState)
    (hre : Reachable uid s) : s.openStreams.length ≤ 1 := by
  obtain ⟨h1, h2, h3, h4, h5, h6⟩ := reachable_inv hre
  rw [h2]
  cases s.stream <;> simp

/-- Witness for C9 at the reachable camera-active sample state. -/
theorem claim_C9_witness :
    Reachable uid0 sCam ∧ sCam.openStreams.length ≤ 1 :=
  ⟨reach_sCam, claim_C9_single_stream uid0 sCam reach_sCam⟩

/-- Claim C3: from every state in which Retake is enabled (image held,
no classification, recognition, or write in flight), `retakeImage` leaves
the session with `capturedImage = none`, `recognizedName = ""`, and
`faceDetectedByAI = false`, whichever way the restarted camera resolves. -/
theorem claim_C3_retake_resets (uid : String) (s : CState) (camOk : Bool)
    (hen : enabled s (.retake camOk) = true) :
    ((step uid s (.retake camOk)).1).capturedImage = none
      ∧ ((step uid s (.retake camOk)).1).recognizedName = ""
      ∧ ((step uid s (.retake camOk)).1).faceDetectedByAI = false := by
  cases camOk <;> cases hs : s.stream <;>
    simp [step, retakeImage, startCameraEffect, stopCamera, hs]

/-- Witness for C3 at the reachable captured sample state. -/
theorem claim_C3_witness :
    enabled sCap (.retake true) = true
      ∧ ((step uid0 sCap (.retake true)).1).capturedImage = none
      ∧ ((step uid0 sCap (.retake true)).1).recognizedName = ""
      ∧ ((step uid0 sCap (.retake true)).1).faceDetectedByAI = false :=
  ⟨by decide, claim_C3_retake_resets uid0 sCap true (by decide)⟩

/-- Claim C1: in every reachable state, a Record Store write is performed
only when the face-detection gate is up, the gate was set by the
classifier for the currently held `capturedImage` (ghost `gateImage`
equals `capturedImage`, which is the image written), and the name being
logged is non-empty at the moment of the write call. -/
theorem claim_C1_write_guarded (uid : String) (s s' : CState) (e : Ev)
    (r : AttendanceRecord) (hre : Reachable uid s)
    (hen : enabled s e = true) (hst : step uid s e = (s', some r)) :
    s.faceDetectedByAI = true ∧ s.gateImage = s.capturedImage
      ∧ s.capturedImage = some r.image ∧ r.personName ≠ "" := by
  obtain ⟨h1, h2, h3, h4, h5, h6⟩ := reachable_inv hre
  cases e with
  | startCameraOk => simp [step] at hst
  | startCameraFail => simp [step] at hst
  | captureOk img => simp [step] at hst
  | captureNotReady => simp [step] at hst
  | processResult r' => simp [step] at hst
  | startVoice supported => simp [step] at hst
  | voiceError err => simp [step] at hst
  | retake camOk => simp [step] at hst
  | voiceResult t dbReady writeErr =>
      simp only [enabled] at hen
      obtain ⟨hgate, himg, hname⟩ := h5 hen
      obtain ⟨img, hs⟩ := Option.isSome_iff_exists.mp himg
      by_cases ht : t = ""
      · simp [step, onVoiceResult, logAttendance, ht, hs] at hst
      · cases dbReady with
        | false => simp [step, onVoiceResult, logAttendance, ht, hs] at hst
        | true =>
            cases writeErr with
            | some err => simp [step, onVoiceResult, logAttendance, ht, hs] at hst
            | none =>
                simp [step, onVoiceResult, logAttendance, ht, hs, Prod.mk.injEq] at hst
                obtain ⟨hA, hB⟩ := hst
                refine ⟨hgate, (h6 hgate).2, ?_, ?_⟩
                · rw [hs, ← hB]
                · rw [← hB]
                  exact ht

/-- Witness for C1 at the concrete successful sample write. -/
theorem claim_C1_witness :
    Reachable uid0 sListen
      ∧ enabled sListen (.voiceResult "Alice" true none) = true
      ∧ step uid0 sListen (.voiceResult "Alice" true none) = (sLogged, some rec0)
      ∧ (sListen.faceDetectedByAI = true ∧ sListen.gateImage = sListen.capturedImage
          ∧ sListen.capturedImage = some rec0.image ∧ rec0.personName ≠ "") :=
  ⟨reach_sListen, by decide, by decide,
   claim_C1_write_guarded uid0 sListen sLogged (.voiceResult "Alice" true none) rec0
     reach_sListen (by decide) (by decide)⟩

/-- Claim C5: for every successful store write issued from the Logging
step, the controller clears `recognizedName` and the face-detected gate,
reports success, leaves `capturedImage` unchanged, and the session is back
in the Captured shape (image held, camera off, not listening, not
processing). -/
theorem claim_C5_success_frame (uid t : String) (s : CState)
    (hre : Reachable uid s)
    (hen : enabled s (.voiceResult t true none) = true) (ht : t ≠ "") :
    ∃ img, s.capturedImage = some img
      ∧ (step uid s (.voiceResult t true none)).2 = some ⟨t, img, uid⟩
      ∧ ((step uid s (.voiceResult t true none)).1).recognizedName = ""
      ∧ ((step uid s (.voiceResult t true none)).1).faceDetectedByAI = false
      ∧ ((step uid s (.voiceResult t true none)).1).capturedImage = s.capturedImage
      ∧ ((step uid s (.voiceResult t true none)).1).message
          = "Attendance logged successfully for " ++ t ++ "!"
      ∧ ((step uid s (.voiceResult t true none)).1).isCameraActive = false
      ∧ ((step uid s (.voiceResult t true none)).1).isListeningForName = false
      ∧ ((step uid s (.voiceResult t true none)).1).isProcessing = false := by
  obtain ⟨h1, h2, h3, h4, h5, h6⟩ := reachable_inv hre
  simp only [enabled] at hen
  obtain ⟨hgate, himg, hname⟩ := h5 hen
  obtain ⟨img, hs⟩ := Option.isSome_iff_exists.mp himg
  have hact : s.isCameraActive = false := camera_inactive_of_isSome s h4 himg
  exact ⟨img, hs, by simp [step, onVoiceResult, logAttendance, ht, hs],
    by simp [step, onVoiceResult, logAttendance, ht, hs],
    by simp [step, onVoiceResult, logAttendance, ht, hs],
    by simp [step, onVoiceResult, logAttendance, ht, hs],
    by simp [step, onVoiceResult, logAttendance, ht, hs],
    by simp [step, onVoiceResult, logAttendance, ht, hs, hact],
    by simp [step, onVoiceResult, logAttendance, ht, hs],
    by simp [step, onVoiceResult, logAttendance, ht, hs]⟩

/-- Witness for C5 at the concrete successful sample write. -/
theorem claim_C5_witness :
    Reachable uid0 sListen
      ∧ enabled sListen (.voiceResult "Alice" true none) = true
      ∧ ("Alice" : String) ≠ ""
      ∧ ∃ img, sListen.capturedImage = some img
          ∧ (step uid0 sListen (.voiceResult "Alice" true none)).2 = some ⟨"Alice", img, uid0⟩
          ∧ ((step uid0 sListen (.voiceResult "Alice" true none)).1).recognizedName = ""
          ∧ ((step uid0 sListen (.voiceResult "Alice" true none)).1).faceDetectedByAI = false
          ∧ ((step uid0 sListen (.voiceResult "Alice" true none)).1).capturedImage = sListen.capturedImage
          ∧ ((step uid0 sListen (.voiceResult "Alice" true none)).1).message
              = "Attendance logged successfully for " ++ "Alice" ++ "!"
          ∧ ((step uid0 sListen (.voiceResult "Alice" true none)).1).isCameraActive = false
          ∧ ((step uid0 sListen (.voiceResult "Alice" true none)).1).isListeningForName = false
          ∧ ((step uid0 sListen (.voiceResult "Alice" true none)).1).isProcessing = false :=
  ⟨reach_sListen, by decide, by decide,
   claim_C5_success_frame uid0 "Alice" sListen reach_sListen (by decide) (by decide)⟩

/-- Counterexample to C4 as stated: at the reachable state reached by a
failed store write (transcript "Alice", store offline), the image and the
face gate are indeed preserved, but `recognizedName` still holds the
transcript, so the voice-input action is not enabled — the user cannot
start a new recognition session without retaking. -/
theorem claim_C4_counterexample :
    Reachable uid0 sFail
      ∧ sFail.capturedImage = some img0
      ∧ sFail.faceDetectedByAI = true
      ∧ sFail.recognizedName = "Alice"
      ∧ enabled sFail (.startVoice true) = false
      ∧ enabled sFail (.startVoice false) = false :=
  ⟨reach_sFail, by decide, by decide, by decide, by decide, by decide⟩

/-- Claim C4 (amended): for every failing store write issued from the
Logging step, the controller reports the error message and preserves the
captured image and the face-detected gate — but `recognizedName` retains
the transcript instead of being cleared, so the voice-input control is
not re-enabled; retrying requires an explicit Retake. -/
theorem claim_C4_failure_frame (uid t e' : String) (s : CState)
    (hre : Reachable uid s)
    (hen : enabled s (.voiceResult t true (some e')) = true) (ht : t ≠ "") :
    (step uid s (.voiceResult t true (some e'))).2 = none
      ∧ ((step uid s (.voiceResult t true (some e'))).1).capturedImage = s.capturedImage
      ∧ ((step uid s (.voiceResult t true (some e'))).1).faceDetectedByAI = true
      ∧ ((step uid s (.voiceResult t true (some e'))).1).recognizedName = t
      ∧ ((step uid s (.voiceResult t true (some e'))).1).message
          = "Error logging attendance: " ++ e' ++ "."
      ∧ (∀ b, enabled ((step uid s (.voiceResult t true (some e'))).1) (.startVoice b) = false) := by
  obtain ⟨h1, h2, h3, h4, h5, h6⟩ := reachable_inv hre
  simp only [enabled] at hen
  obtain ⟨hgate, himg, hname⟩ := h5 hen
  obtain ⟨img, hs⟩ := Option.isSome_iff_exists.mp himg
  refine ⟨by simp [step, onVoiceResult, logAttendance, ht, hs],
    by simp [step, onVoiceResult, logAttendance, ht, hs],
    by simp [step, onVoiceResult, logAttendance, ht, hs, hgate],
    by simp [step, onVoiceResult, logAttendance, ht, hs],
    by simp [step, onVoiceResult, logAttendance, ht, hs], ?_⟩
  intro b
  simp [step, onVoiceResult, logAttendance, enabled, ht, hs]

/-- Witness for the amended C4 at the concrete failing sample write. -/
theorem claim_C4_witness :
    Reachable uid0 sListen
      ∧ enabled sListen (.voiceResult "Alice" true (some "store offline")) = true
      ∧ ("Alice" : String) ≠ ""
      ∧ ((step uid0 sListen (.voiceResult "Alice" true (some "store offline"))).2 = none
          ∧ ((step uid0 sListen (.voiceResult "Alice" true (some "store offline"))).1).capturedImage = sListen.capturedImage
          ∧ ((step uid0 sListen (.voiceResult "Alice" true (some "store offline"))).1).faceDetectedByAI = true
          ∧ ((step uid0 sListen (.voiceResult "Alice" true (some "store offline"))).1).recognizedName = "Alice"
          ∧ ((step uid0 sListen (.voiceResult "Alice" true (some "store offline"))).1).message
              = "Error logging attendance: " ++ "store offline" ++ "."
          ∧ (∀ b, enabled ((step uid0 sListen (.voiceResult "Alice" true (some "store offline"))).1) (.startVoice b) = false)) :=
  ⟨reach_sListen, by decide, by decide,
   claim_C4_failure_frame uid0 "Alice" "store offline" sListen reach_sListen
     (by decide) (by decide)⟩

/-- Claim C7: from every reachable CameraActive state, `captureImage` with
a ready surface stores the encoded frame, releases the video source
(stream stopped and cleared, no open stream left, camera inactive) and
leaves the classification gate down; with the surface not ready it only
reports the not-ready error, all other fields unchanged, and stays
CameraActive. -/
theorem claim_C7_capture (uid : String) (s : CState)
    (hre : Reachable uid s) (hact : s.isCameraActive = true) :
    (∀ img,
      ((step uid s (.captureOk img)).1).capturedImage = some img
        ∧ ((step uid s (.captureOk img)).1).stream = none
        ∧ ((step uid s (.captureOk img)).1).isCameraActive = false
        ∧ ((step uid s (.captureOk img)).1).openStreams = []
        ∧ ((step uid s (.captureOk img)).1).faceDetectedByAI = false
        ∧ ((step uid s (.captureOk img)).1).recognizedName = "")
      ∧ (step uid s .captureNotReady).1
          = { s with message := "Camera or capture area not ready. Please try again." } := by
  obtain ⟨h1, h2, h3, h4, h5, h6⟩ := reachable_inv hre
  obtain ⟨himg, hgate, hname, hlisten⟩ := h4 hact
  have hsome : s.stream.isSome = true := by rw [← h3, hact]
  obtain ⟨i, hs⟩ := Option.isSome_iff_exists.mp hsome
  rw [hs] at h2
  constructor
  · intro img
    simp [step, captureImage, stopCamera, hs, h2, hgate, hname]
  · simp [step, captureImage]

/-- Witness for C7 at the reachable camera-active sample state. -/
theorem claim_C7_witness :
    Reachable uid0 sCam ∧ sCam.isCameraActive = true
      ∧ ((∀ img,
            ((step uid0 sCam (.captureOk img)).1).capturedImage = some img
              ∧ ((step uid0 sCam (.captureOk img)).1).stream = none
              ∧ ((step uid0 sCam (.captureOk img)).1).isCameraActive = false
              ∧ ((step uid0 sCam (.captureOk img)).1).openStreams = []
              ∧ ((step uid0 sCam (.captureOk img)).1).faceDetectedByAI = false
              ∧ ((step uid0 sCam (.captureOk img)).1).recognizedName = "")
          ∧ (step uid0 sCam .captureNotReady).1
              = { sCam with message := "Camera or capture area not ready. Please try again." }) :=
  ⟨reach_sCam, by decide, claim_C7_capture uid0 sCam reach_sCam (by decide)⟩

/-- Claim C8: when `getUserMedia` rejects during `startCamera`, the
controller stays Idle: no stream is stored, no stream is left open, the
camera is inactive, no image or name or gate survives, and the
"Could not access webcam" error message is shown. -/
theorem claim_C8_camera_denied (uid : String) (s : CState)
    (hre : Reachable uid s) (hen : enabled s .startCameraFail = true) :
    ((step uid s .startCameraFail).1).stream = none
      ∧ ((step uid s .startCameraFail).1).isCameraActive = false
      ∧ ((step uid s .startCameraFail).1).capturedImage = none
      ∧ ((step uid s .startCameraFail).1).openStreams = []
      ∧ ((step uid s .startCameraFail).1).recognizedName = ""
      ∧ ((step uid s .startCameraFail).1).faceDetectedByAI = false
      ∧ ((step uid s .startCameraFail).1).message
          = "Error: Could not access webcam. Please ensure it's connected and permissions are granted." := by
  obtain ⟨h1, h2, h3, h4, h5, h6⟩ := reachable_inv hre
  simp only [enabled, Bool.and_eq_true, Bool.not_eq_true'] at hen
  obtain ⟨hact, himg⟩ := hen
  obtain ⟨hstr, ho⟩ := stream_shape_of_inactive s h2 h3 hact
  simp [step, startCameraEffect, hstr, ho]

/-- Witness for C8 at the initial state. -/
theorem claim_C8_witness :
    Reachable uid0 initState ∧ enabled initState .startCameraFail = true
      ∧ ((step uid0 initState .startCameraFail).1).stream = none
      ∧ ((step uid0 initState .startCameraFail).1).isCameraActive = false
      ∧ ((step uid0 initState .startCameraFail).1).capturedImage = none
      ∧ ((step uid0 initState .startCameraFail).1).openStreams = []
      ∧ ((step uid0 initState .startCameraFail).1).recognizedName = ""
      ∧ ((step uid0 initState .startCameraFail).1).faceDetectedByAI = false
      ∧ ((step uid0 initState .startCameraFail).1).message
          = "Error: Could not access webcam. Please ensure it's connected and permissions are granted." :=
  ⟨Reachable.init, by decide,
   claim_C8_camera_denied uid0 initState Reachable.init (by decide)⟩

/-- Claim C10: invoking `handleProcessImage` twice on the same unchanged
captured image with a deterministically negative classifier result leaves
the session in the Captured shape after each invocation (image unchanged,
gate down, name empty, camera state untouched), the action stays enabled,
the second invocation changes nothing at all, and neither invocation emits
a store write. -/
theorem claim_C10_idempotent (uid img : String) (s : CState) (r : AIResult)
    (_hre : Reachable uid s) (hs : s.capturedImage = some img)
    (_hgate : s.faceDetectedByAI = false) (_hname : s.recognizedName = "")
    (hneg : ¬(r.status = some "success" ∧ r.faceDetected = true)) :
    (step uid s (.processResult r)).2 = none
      ∧ ((step uid s (.processResult r)).1).capturedImage = some img
      ∧ ((step uid s (.processResult r)).1).faceDetectedByAI = false
      ∧ ((step uid s (.processResult r)).1).recognizedName = ""
      ∧ ((step uid s (.processResult r)).1).isCameraActive = s.isCameraActive
      ∧ enabled ((step uid s (.processResult r)).1) (.processResult r) = true
      ∧ step uid ((step uid s (.processResult r)).1) (.processResult r)
          = ((step uid s (.processResult r)).1, none) := by
  have hbr : (r.status == some "success" && r.faceDetected) = false := by
    cases hb : (r.status == some "success" && r.faceDetected)
    · rfl
    · simp only [Bool.and_eq_true, beq_iff_eq] at hb
      exact absurd ⟨hb.1, hb.2⟩ hneg
  refine ⟨by simp [step, handleProcessImage, hs, hbr],
    by simp [step, handleProcessImage, hs, hbr],
    by simp [step, handleProcessImage, hs, hbr],
    by simp [step, handleProcessImage, hs, hbr],
    by simp [step, handleProcessImage, hs, hbr],
    by simp [step, handleProcessImage, enabled, hs, hbr],
    by simp [step, handleProcessImage, hs, hbr]⟩

/-- Witness for C10 at the reachable captured sample state and a concrete
negative classifier result. -/
theorem claim_C10_witness :
    Reachable uid0 sCap
      ∧ sCap.capturedImage = some img0
      ∧ sCap.faceDetectedByAI = false
      ∧ sCap.recognizedName = ""
      ∧ ¬((AIResult.mk (some "failure") false (some "No face detected")).status = some "success"
            ∧ (AIResult.mk (some "failure") false (some "No face detected")).faceDetected = true)
      ∧ ((step uid0 sCap (.processResult ⟨some "failure", false, some "No face detected"⟩)).2 = none
          ∧ ((step uid0 sCap (.processResult ⟨some "failure", false, some "No face detected"⟩)).1).capturedImage = some img0
          ∧ ((step uid0 sCap (.processResult ⟨some "failure", false, some "No face detected"⟩)).1).faceDetectedByAI = false
          ∧ ((step uid0 sCap (.processResult ⟨some "failure", false, some "No face detected"⟩)).1).recognizedName = ""
          ∧ ((step uid0 sCap (.processResult ⟨some "failure", false, some "No face detected"⟩)).1).isCameraActive = sCap.isCameraActive
          ∧ enabled ((step uid0 sCap (.processResult ⟨some "failure", false, some "No face detected"⟩)).1) (.processResult ⟨some "failure", false, some "No face detected"⟩) = true
          ∧ step uid0 ((step uid0 sCap (.processResult ⟨some "failure", false, some "No face detected"⟩)).1) (.processResult ⟨some "failure", false, some "No face detected"⟩)
              = (((step uid0 sCap (.processResult ⟨some "failure", false, some "No face detected"⟩)).1), none)) :=
  ⟨reach_sCap, by decide, by decide, by decide, by decide,
   claim_C10_idempotent uid0 img0 sCap ⟨some "failure", false, some "No face detected"⟩
     reach_sCap (by decide) (by decide) (by decide) (by decide)⟩
